import Mathlib

/-!
Shallow embedding of the react-pdf-editor application (TypeScript sources under
`src/`) and proofs of the specification claims about it.

Numbers that are JavaScript `number`s are embedded as rationals (`ℚ`); the
claims under study are algebraic relations in which the floating-point
rounding plays no role, so exact arithmetic both states and settles them.
Identifiers, colors and image payloads are embedded as `String`; optional
values (`null` / `undefined`) as `Option`; JS objects used as string-keyed
maps as association lists in key-insertion order.

Source files embedded:
- `src/src/types/pdf-editor.ts`          (data model)
- `src/src/lib/pdf-lib-export.ts`        (PDF re-authoring export)
- `src/src/components/pdf-editor/PDFEditor.tsx`     (session state, handlers)
- `src/src/components/pdf-editor/DraggableText.tsx` (drag interaction)
- the `usePDFScale` hook (coordinate transform; its source travels as the
  second embedded document of `src/TROUBLESHOOTING.md`)
-/

namespace PdfEditor

/-! ## Data model (src/src/types/pdf-editor.ts) -/

/-- TextElement: a placed text annotation, position in PDF points. -/
structure TextElement where
  id : String
  content : String
  x : ℚ
  y : ℚ
  fontSize : ℚ
  fontFamily : String
  color : String
  fontWeight : String
  fontStyle : String
  pageNumber : Int
deriving Repr, DecidableEq

/-- SignatureElement: a placed signature image annotation. -/
structure SignatureElement where
  id : String
  imageData : String
  x : ℚ
  y : ℚ
  width : ℚ
  height : ℚ
  rotation : ℚ
  color : String
  pageNumber : Int
  timestamp : Int
  opacity : ℚ
deriving Repr, DecidableEq

/-- SavedSignature: an entry of the persisted signature library. -/
structure SavedSignature where
  id : String
  name : String
  imageData : String
  width : ℚ
  height : ℚ
  color : String
  timestamp : Int
deriving Repr, DecidableEq

/-- PDFDocument: the working document (the raw file bytes are opaque and
omitted; only the fields the claims touch are kept). -/
structure PDFDocument where
  name : String
  numPages : Int
  textElements : List TextElement
  signatureElements : List SignatureElement
deriving Repr, DecidableEq

/-- FormValue: a captured form-data value (string or boolean in TS). -/
inductive FormValue where
  | str (s : String)
  | bool (b : Bool)
deriving Repr, DecidableEq

/-- FormFieldData: a JS object keyed by field name, embedded as an
association list in key-insertion order (JS object keys are unique and
enumerate in insertion order). -/
abbrev FormFieldData := List (String × FormValue)

/-! ## String helpers (JS semantics) -/

/-- jsListIsPre: `a` is a prefix of the character list `b`. -/
def jsListIsPre : List Char → List Char → Bool
  | [], _ => true
  | _ :: _, [] => false
  | a :: as, b :: bs => a == b && jsListIsPre as bs

/-- jsListIsSub: the character list `a` occurs contiguously inside `b`
(JS `String.prototype.includes` on the underlying lists). -/
def jsListIsSub (a : List Char) : List Char → Bool
  | [] => jsListIsPre a []
  | b :: bs => jsListIsPre a (b :: bs) || jsListIsSub a bs

/-- jsIncludes: JS `hay.includes(needle)` (substring containment). -/
def jsIncludes (hay needle : String) : Bool :=
  jsListIsSub needle.toList hay.toList

/-- jsLookup: JS object property access `obj[key]` on the association-list
embedding; returns the first binding of the key. -/
def jsLookup (fd : FormFieldData) (key : String) : Option FormValue :=
  List.lookup key fd

/-! ## PDF re-authoring export (src/src/lib/pdf-lib-export.ts)

The pdf-lib library is external; the effect of the export code on it is
embedded as a trace of the drawing/filling calls the code issues, in program
order. Decoding and embedding of signature images happen inside external
primitives (`atob`, `pdfDoc.embedPng`, `pdfDoc.embedJpg`); their outcomes are
supplied by an oracle so that every control path of the export code is
covered. -/

/-- StandardFont: the three standard fonts the export code embeds. -/
inductive StandardFont where
  | timesRoman
  | courier
  | helvetica
deriving Repr, DecidableEq

/-- RgbColor: result of `parseColor`; a component is `none` when the JS code
would produce `NaN` (invalid hex digits). -/
structure RgbColor where
  r : Option ℚ
  g : Option ℚ
  b : Option ℚ
deriving Repr, DecidableEq

/-- hexDigitVal: value of one hexadecimal digit, if any. -/
def hexDigitVal (c : Char) : Option ℕ :=
  if '0' ≤ c ∧ c ≤ '9' then some (c.toNat - '0'.toNat)
  else if 'a' ≤ c ∧ c ≤ 'f' then some (c.toNat - 'a'.toNat + 10)
  else if 'A' ≤ c ∧ c ≤ 'F' then some (c.toNat - 'A'.toNat + 10)
  else none

/-- jsParseIntHexAux: accumulate leading hexadecimal digits. -/
def jsParseIntHexAux : List Char → ℕ → ℕ
  | [], acc => acc
  | c :: cs, acc =>
    match hexDigitVal c with
    | some d => jsParseIntHexAux cs (acc * 16 + d)
    | none => acc

/-- jsParseIntHex: JS `parseInt(s, 16)`; `none` models `NaN` (no leading
hexadecimal digit). -/
def jsParseIntHex (s : String) : Option ℕ :=
  match s.toList with
  | [] => none
  | c :: cs =>
    match hexDigitVal c with
    | some d => some (jsParseIntHexAux cs d)
    | none => none

/-- strSubstr: JS `s.substr(start, len)`. -/
def strSubstr (s : String) (start len : ℕ) : String :=
  String.mk ((s.toList.drop start).take len)

/-- removeFirstHashAux: drop the first occurrence of a hash character. -/
def removeFirstHashAux : List Char → List Char
  | [] => []
  | c :: cs => if c = '#' then cs else c :: removeFirstHashAux cs

/-- removeFirstHash: JS `colorString.replace(&#35;, empty)` (first occurrence
only). -/
def removeFirstHash (s : String) : String :=
  String.mk (removeFirstHashAux s.toList)

/-- parseColor (pdf-lib-export.ts lines 334-344): parse a hex color string
into r/g/b components scaled to the unit interval. -/
def parseColor (colorString : String) : RgbColor :=
  let hex := removeFirstHash colorString
  { r := (jsParseIntHex (strSubstr hex 0 2)).map (fun n => (n : ℚ) / 255)
    g := (jsParseIntHex (strSubstr hex 2 2)).map (fun n => (n : ℚ) / 255)
    b := (jsParseIntHex (strSubstr hex 4 2)).map (fun n => (n : ℚ) / 255) }

/-- chooseFont (pdf-lib-export.ts lines 258-269): best-effort font-family
match used when drawing a text element. -/
def chooseFont (fontFamily : String) : StandardFont :=
  if jsIncludes fontFamily.toLower "times" then .timesRoman
  else if jsIncludes fontFamily.toLower "courier" then .courier
  else .helvetica

/-- PageSize: native point dimensions of one page of the loaded document
(`page.getSize()`). -/
structure PageSize where
  width : ℚ
  height : ℚ
deriving Repr, DecidableEq

/-- PdfFieldType: discriminates `field.constructor.name` in the form-filling
code; `other` covers every constructor the code does not handle (for example
`PDFButton`). -/
inductive PdfFieldType where
  | textField
  | checkBox
  | radioGroup
  | dropdown
  | other
deriving Repr, DecidableEq

/-- PdfField: a form field detected by pdf-lib inside the loaded document. -/
structure PdfField where
  name : String
  ftype : PdfFieldType
deriving Repr, DecidableEq

/-- PdfAction: one call the export code issues against the pdf-lib document,
recorded in program order. -/
inductive PdfAction where
  | fillText (field : String) (value : String)
  | checkBox (field : String)
  | uncheckBox (field : String)
  | selectRadio (field : String) (value : String)
  | selectDropdown (field : String) (value : String)
  | flatten
  | drawText (content : String) (x y size : ℚ) (font : StandardFont) (color : RgbColor)
  | drawImage (bytes : String) (x y width height : ℚ) (opacity : ℚ) (rotate : Option ℚ)
  | warn (msg : String)
deriving Repr, DecidableEq

/-- formValueToString: JS `String(fieldValue)`. -/
def formValueToString : FormValue → String
  | .str s => s
  | .bool b => if b then "true" else "false"

/-- resolveFieldValue (pdf-lib-export.ts lines 194-205): the value chosen for
a PDF form field name from the captured form data: exact object lookup, then
the first case-insensitively equal key, then the first key related by
substring containment in either direction. The `k == empty` guards mirror the
JS truthiness tests `if (ciKey)` / `if (partialKey)` on the found key. -/
def resolveFieldValue (fd : FormFieldData) (fieldName : String) : Option FormValue :=
  match jsLookup fd fieldName with
  | some v => some v
  | none =>
    let dataKeys := fd.map Prod.fst
    let afterCi : Option FormValue :=
      match dataKeys.find? (fun k => k.toLower == fieldName.toLower) with
      | some ciKey => if ciKey == "" then none else jsLookup fd ciKey
      | none => none
    match afterCi with
    | some v => some v
    | none =>
      match dataKeys.find? (fun k =>
          jsIncludes fieldName.toLower k.toLower || jsIncludes k.toLower fieldName.toLower) with
      | some partialKey => if partialKey == "" then none else jsLookup fd partialKey
      | none => none

/-- specResolveFieldValue. Modelled from the spec: the three-tier
name-matching heuristic as the spec words it — exact name, then
case-insensitive equality, then substring containment in either direction,
the first tier that yields a value winning. Used only to compare against
`resolveFieldValue`, which is embedded from the code. -/
def specResolveFieldValue (fd : FormFieldData) (fieldName : String) : Option FormValue :=
  match jsLookup fd fieldName with
  | some v => some v
  | none =>
    match fd.find? (fun kv => kv.1.toLower == fieldName.toLower) with
    | some kv => some kv.2
    | none =>
      match fd.find? (fun kv =>
          jsIncludes fieldName.toLower kv.1.toLower || jsIncludes kv.1.toLower fieldName.toLower) with
      | some kv => some kv.2
      | none => none

/-- fillFieldActions (pdf-lib-export.ts lines 206-233): the value-setting
calls issued for one form field; empty when the field is left unfilled. -/
def fillFieldActions (fd : FormFieldData) (field : PdfField) : List PdfAction :=
  match resolveFieldValue fd field.name with
  | none => []
  | some v =>
    match field.ftype with
    | .textField => [.fillText field.name (formValueToString v)]
    | .checkBox =>
      match v with
      | .bool true => [.checkBox field.name]
      | .bool false => [.uncheckBox field.name]
      | .str _ => []
    | .radioGroup =>
      match v with
      | .str s => if s == "" then [] else [.selectRadio field.name s]
      | .bool _ => []
    | .dropdown =>
      match v with
      | .str s => if s == "" then [] else [.selectDropdown field.name s]
      | .bool _ => []
    | .other => []

/-- fillFormFieldsFuzzyTrace (pdf-lib-export.ts lines 190-235): actions
issued by `fillFormFieldsFuzzy`, one field after the other in document
order. -/
def fillFormFieldsFuzzyTrace (fields : List PdfField) (fd : FormFieldData) : List PdfAction :=
  match fields with
  | [] => []
  | f :: rest => fillFieldActions fd f ++ fillFormFieldsFuzzyTrace rest fd

/-- exportFormPhaseTrace (pdf-lib-export.ts lines 40-43): the form phase of
`exportPDFWithFormData` — fuzzy fill of every field, then `form.flatten()`. -/
def exportFormPhaseTrace (fields : List PdfField) (fd : FormFieldData) : List PdfAction :=
  fillFormFieldsFuzzyTrace fields fd ++ [PdfAction.flatten]

/-- EmbedOracle: outcomes of the external image primitives used on a
signature element's payload: `base64ToBytes` (built on the browser `atob`,
which throws on malformed input — `none`), and the pdf-lib PNG / JPEG
embedders (`false` = the embed call throws). -/
structure EmbedOracle where
  decodeBytes : String → Option String
  embedPngOk : String → Bool
  embedJpgOk : String → Bool

/-- perTextElement (pdf-lib-export.ts lines 245-286): actions issued for one
text element; elements whose page index falls outside the document are
skipped by `continue`. -/
def perTextElement (pages : List PageSize) (el : TextElement) : List PdfAction :=
  let pageIndex : Int := el.pageNumber - 1
  if pageIndex < 0 ∨ (pages.length : Int) ≤ pageIndex then []
  else
    match pages.get? pageIndex.toNat with
    | none => []
    | some page =>
      [.drawText el.content el.x (page.height - el.y - el.fontSize)
        el.fontSize (chooseFont el.fontFamily) (parseColor el.color)]

/-- perSignatureElement (pdf-lib-export.ts lines 289-331): actions issued for
one signature element: page-range guard, base64 decode (outer catch on
throw), PNG embed with JPEG fallback, then the image draw; rotation zero is
falsy in JS so it passes `undefined` to pdf-lib. -/
def perSignatureElement (o : EmbedOracle) (pages : List PageSize)
    (el : SignatureElement) : List PdfAction :=
  let pageIndex : Int := el.pageNumber - 1
  if pageIndex < 0 ∨ (pages.length : Int) ≤ pageIndex then []
  else
    match pages.get? pageIndex.toNat with
    | none => []
    | some page =>
      match o.decodeBytes el.imageData with
      | none => [.warn "Error adding signature element"]
      | some bytes =>
        if o.embedPngOk bytes || o.embedJpgOk bytes then
          [.drawImage bytes el.x (page.height - el.y - el.height - 20)
            el.width el.height el.opacity
            (if el.rotation == 0 then none else some el.rotation)]
        else
          [.warn "Failed to embed signature image"]

/-- addCustomElementsTrace (pdf-lib-export.ts lines 237-332): all text
elements in order, then all signature elements in order. -/
def addCustomElementsTrace (o : EmbedOracle) (pages : List PageSize)
    (textEls : List TextElement) (sigEls : List SignatureElement) : List PdfAction :=
  (textEls.map (perTextElement pages)).flatten ++
    (sigEls.map (perSignatureElement o pages)).flatten

/-! ## Editor session state (src/src/components/pdf-editor/PDFEditor.tsx)

The React `useState` hooks of `PDFEditor` are gathered into one record; each
handler is embedded as a state transformer applying exactly the `set...`
calls the handler makes. Identifier generation uses `Date.now()` and a random
suffix; both are passed in as inputs. -/

/-- Tool: the toolbar's selected tool. -/
inductive Tool where
  | select
  | text
  | signature
deriving Repr, DecidableEq

/-- ToolbarState (types file): the toolbar portion of the session state. -/
structure ToolbarState where
  selectedTool : Tool
  fontSize : ℚ
  fontFamily : String
  color : String
  fontWeight : String
  fontStyle : String
  signatureCanvasWidth : ℚ
  signatureCanvasHeight : ℚ
  signatureColor : String
deriving Repr, DecidableEq

/-- EditorState: the `useState` hooks of the `PDFEditor` component. -/
structure EditorState where
  document : Option PDFDocument
  currentPage : Int
  selectedTextId : Option String
  selectedSignatureId : Option String
  editingTextId : Option String
  showSignatureCanvas : Bool
  savedSignatures : List SavedSignature
  toolbar : ToolbarState
deriving Repr, DecidableEq

/-- genElementId: the id scheme `kind-Date.now()-randomSuffix` used when
creating or duplicating elements. -/
def genElementId (kind : String) (now : Int) (rand : String) : String :=
  kind ++ "-" ++ toString now ++ "-" ++ rand

/-- TextPatch: `Partial&lt;TextElement&gt;` — the update objects passed to
`handleTextElementUpdate`. -/
structure TextPatch where
  id : Option String := none
  content : Option String := none
  x : Option ℚ := none
  y : Option ℚ := none
  fontSize : Option ℚ := none
  fontFamily : Option String := none
  color : Option String := none
  fontWeight : Option String := none
  fontStyle : Option String := none
  pageNumber : Option Int := none
deriving Repr, DecidableEq

/-- applyTextPatch: JS object spread `&#x7b; ...element, ...updates &#x7d;`. -/
def applyTextPatch (e : TextElement) (p : TextPatch) : TextElement :=
  { id := p.id.getD e.id
    content := p.content.getD e.content
    x := p.x.getD e.x
    y := p.y.getD e.y
    fontSize := p.fontSize.getD e.fontSize
    fontFamily := p.fontFamily.getD e.fontFamily
    color := p.color.getD e.color
    fontWeight := p.fontWeight.getD e.fontWeight
    fontStyle := p.fontStyle.getD e.fontStyle
    pageNumber := p.pageNumber.getD e.pageNumber }

/-- handleTextElementUpdate (PDFEditor.tsx lines 159-168): merge an update
object into the text element with the given id. -/
def handleTextElementUpdate (st : EditorState) (id : String) (p : TextPatch) : EditorState :=
  match st.document with
  | none => st
  | some d =>
    { st with document := some (
        { d with textElements :=
            d.textElements.map (fun e => if e.id == id then applyTextPatch e p else e) }) }

/-- handleTextElementDelete (PDFEditor.tsx lines 181-195): remove the text
element and clear matching selection/edit state. -/
def handleTextElementDelete (st : EditorState) (id : String) : EditorState :=
  match st.document with
  | none => st
  | some d =>
    let st1 := { st with document := some (
        { d with textElements := d.textElements.filter (fun e => e.id != id) }) }
    let st2 := if st1.selectedTextId == some id then { st1 with selectedTextId := none } else st1
    if st2.editingTextId == some id then { st2 with editingTextId := none } else st2

/-- handleSignatureElementDelete (PDFEditor.tsx lines 197-213): remove the
signature element and clear matching selection state. -/
def handleSignatureElementDelete (st : EditorState) (id : String) : EditorState :=
  match st.document with
  | none => st
  | some d =>
    let st1 := { st with document := some (
        { d with signatureElements := d.signatureElements.filter (fun e => e.id != id) }) }
    if st1.selectedSignatureId == some id then { st1 with selectedSignatureId := none } else st1

/-- handleTextElementSelect (PDFEditor.tsx lines 215-219). -/
def handleTextElementSelect (st : EditorState) (id : Option String) : EditorState :=
  { st with selectedTextId := id, selectedSignatureId := none, editingTextId := none }

/-- saveSignatureToStore (PDFEditor.tsx lines 282-285): prepend the new saved
signature and keep at most ten (`[savedSignature, ...prev].slice(0, 10)`). -/
def saveSignatureToStore (sig : SavedSignature) (prev : List SavedSignature) :
    List SavedSignature :=
  (sig :: prev).take 10

/-- savedSignatureStore: the store produced by a sequence of saves, oldest
save first, starting from the empty store. -/
def savedSignatureStore (saves : List SavedSignature) : List SavedSignature :=
  saves.foldl (fun st s => saveSignatureToStore s st) []

/-- handleDuplicateElement (PDFEditor.tsx lines 383-440): duplicate the
selected text element (or, when no text element is selected, the selected
signature element) offset by 20 in both axes, and select the duplicate. -/
def handleDuplicateElement (now : Int) (rand : String) (st : EditorState) : EditorState :=
  match st.document with
  | none => st
  | some d =>
    match st.selectedTextId with
    | some selId =>
      match d.textElements.find? (fun e => e.id == selId) with
      | some el =>
        let newEl : TextElement :=
          { el with id := genElementId "text" now rand, x := el.x + 20, y := el.y + 20 }
        { st with
          document := some ({ d with textElements := d.textElements ++ [newEl] })
          selectedTextId := some newEl.id
          selectedSignatureId := none }
      | none => st
    | none =>
      match st.selectedSignatureId with
      | some selId =>
        match d.signatureElements.find? (fun e => e.id == selId) with
        | some el =>
          let newEl : SignatureElement :=
            { el with id := genElementId "signature" now rand
                      x := el.x + 20, y := el.y + 20, timestamp := now }
          { st with
            document := some ({ d with signatureElements := d.signatureElements ++ [newEl] })
            selectedSignatureId := some newEl.id
            selectedTextId := none }
        | none => st
      | none => st

/-- Key: the keys the document-level keydown listener distinguishes (after
`e.key.toLowerCase()`). -/
inductive Key where
  | v
  | t
  | s
  | d
  | escape
  | other
deriving Repr, DecidableEq

/-- handleKeyDown (PDFEditor.tsx lines 580-638): the document-level keyboard
shortcut listener. Suppressed while inline-editing, while the signature
dialog is open, or when the event target is a text input. -/
def handleKeyDown (key : Key) (ctrl meta : Bool) (targetIsTextInput : Bool)
    (now : Int) (rand : String) (st : EditorState) : EditorState :=
  if st.editingTextId.isSome || st.showSignatureCanvas then st
  else if targetIsTextInput then st
  else if ctrl && key == .d then
    if st.selectedTextId.isSome || st.selectedSignatureId.isSome then
      handleDuplicateElement now rand st
    else st
  else
    match key with
    | .v => if !ctrl && !meta then
        { st with toolbar := { st.toolbar with selectedTool := .select } } else st
    | .t => if !ctrl && !meta then
        { st with toolbar := { st.toolbar with selectedTool := .text } } else st
    | .s => if !ctrl && !meta then
        { st with toolbar := { st.toolbar with selectedTool := .signature }
                  showSignatureCanvas := true } else st
    | .escape =>
      let st1 := { st with toolbar := { st.toolbar with selectedTool := .select } }
      let st2 := if st1.selectedTextId.isSome then { st1 with selectedTextId := none } else st1
      let st3 := if st2.selectedSignatureId.isSome then
        { st2 with selectedSignatureId := none } else st2
      let st4 := if st3.editingTextId.isSome then { st3 with editingTextId := none } else st3
      if st4.showSignatureCanvas then { st4 with showSignatureCanvas := false } else st4
    | _ => st

/-! ## Drag interaction (src/src/components/pdf-editor/DraggableText.tsx)

The component renders the element at `(x * scale, y * scale)` and its
`onDrag` handler — fired by the draggable library on every pointer move —
stores `(data.x / scale, data.y / scale)` back through `onUpdate`; its
`onStop` handler only clears the local dragging flag. -/

/-- toScreenCoord (DraggableText.tsx line 137): PDF point to screen pixel. -/
def toScreenCoord (scale v : ℚ) : ℚ := v * scale

/-- toPDFCoord (DraggableText.tsx lines 47-48): screen pixel to PDF point. -/
def toPDFCoord (scale v : ℚ) : ℚ := v / scale

/-- PDFScaleInfo (usePDFScale hook): the scale state shared by the viewer —
the composed display scale together with the measurements it was computed
from. -/
structure PDFScaleInfo where
  displayScale : ℚ
  pdfWidth : ℚ
  pdfHeight : ℚ
  displayWidth : ℚ
  displayHeight : ℚ
  userZoom : ℚ
deriving Repr, DecidableEq

/-- initialScaleInfo (usePDFScale hook): the `useState` initializer. -/
def initialScaleInfo : PDFScaleInfo :=
  { displayScale := 1, pdfWidth := 0, pdfHeight := 0
    displayWidth := 0, displayHeight := 0, userZoom := 1 }

/-- updateScaleInfo (usePDFScale hook): recompute the scale state after a
page layout or zoom change; the composed display scale is
(displayWidth / pdfWidth) * userZoom. -/
def updateScaleInfo (pdfWidth pdfHeight displayWidth displayHeight userZoom : ℚ) :
    PDFScaleInfo :=
  { displayScale := displayWidth / pdfWidth * userZoom
    pdfWidth := pdfWidth, pdfHeight := pdfHeight
    displayWidth := displayWidth, displayHeight := displayHeight
    userZoom := userZoom }

/-- displayToPDF (usePDFScale hook): display pixels to PDF points, dividing
both coordinates by the current display scale. -/
def displayToPDF (info : PDFScaleInfo) (x y : ℚ) : ℚ × ℚ :=
  (x / info.displayScale, y / info.displayScale)

/-- pdfToDisplay (usePDFScale hook): PDF points to display pixels,
multiplying both coordinates by the current display scale. -/
def pdfToDisplay (info : PDFScaleInfo) (x y : ℚ) : ℚ × ℚ :=
  (x * info.displayScale, y * info.displayScale)

/-- DragSession: the component's local dragging flag together with the
editor state its callbacks mutate. -/
structure DragSession where
  isDragging : Bool
  editor : EditorState
deriving Repr, DecidableEq

/-- dragStart (DraggableText.tsx lines 76-85): enter the dragging state and
select the element. -/
def dragStart (elId : String) (s : DragSession) : DragSession :=
  { isDragging := true, editor := handleTextElementSelect s.editor (some elId) }

/-- dragMove (DraggableText.tsx lines 37-50, `handleDrag`): on every pointer
move, convert the draggable data back to PDF coordinates and store them. -/
def dragMove (scale : ℚ) (elId : String) (dataX dataY : ℚ) (s : DragSession) : DragSession :=
  { s with editor := handleTextElementUpdate s.editor elId (
      { x := some (dataX / scale), y := some (dataY / scale) }) }

/-- dragStop (DraggableText.tsx lines 87-89, `handleStop`): clear the
dragging flag; nothing else. -/
def dragStop (s : DragSession) : DragSession :=
  { s with isDragging := false }

/-! ## General lemmas -/

/-- A key found by a predicate over the key list is looked up to the value of
the first pair the same predicate finds: `find?` over keys and `lookup` of
its result agree with `find?` over the pairs. -/
theorem lookup_of_find?_fst (p : String → Bool) :
    ∀ (fd : List (String × FormValue)) (kv : String × FormValue),
      fd.find? (fun x => p x.1) = some kv → List.lookup kv.1 fd = some kv.2 := by
  intro fd
  induction fd with
  | nil => intro kv h; simp at h
  | cons hd tl ih =>
    intro kv h
    by_cases hp : p hd.1
    · have : hd = kv := by
        simpa [List.find?, hp] using h
      subst this
      simp [List.lookup]
    · have htl : tl.find? (fun x => p x.1) = some kv := by
        simpa [List.find?, hp] using h
      have hpkv : p kv.1 = true := by
        have := List.find?_some htl
        simpa using this
      have hne : (kv.1 == hd.1) = false := by
        rcases h1 : kv.1 == hd.1 with _ | _
        · rfl
        · exfalso
          have : kv.1 = hd.1 := by simpa using h1
          rw [this] at hpkv
          simp [hpkv] at hp
      simp [List.lookup, hne, ih kv htl]

/-- Finding over the mapped key list is finding over the pairs. -/
theorem find?_keys_eq (p : String → Bool) (fd : List (String × FormValue)) :
    (fd.map Prod.fst).find? p = (fd.find? (fun kv => p kv.1)).map Prod.fst := by
  induction fd with
  | nil => rfl
  | cons hd tl ih =>
    by_cases hp : p hd.1
    · simp [List.find?, hp]
    · simp [List.find?, hp, ih]

/-! ## C1: screen/PDF coordinate round trip -/

/-- C1: for every zoom level z > 0 (and a rendered page, so both the native
page width and the measured display width are positive), converting a PDF
point to screen coordinates through the hook's `pdfToDisplay` (multiplying by
the composed display scale of `updateScaleInfo`) and converting back through
`displayToPDF` (dividing by the same scale) reproduces the point exactly — in
particular within floating-point tolerance; the inline conversions of the
drag handler (`x * scale` when rendering, `data.x / scale` when storing),
which receive the same `displayScale`, round-trip likewise. -/
theorem c1_transform_round_trip (z pdfWidth pdfHeight displayWidth displayHeight x y : ℚ)
    (hz : 0 < z) (hpw : 0 < pdfWidth) (hdw : 0 < displayWidth) :
    displayToPDF (updateScaleInfo pdfWidth pdfHeight displayWidth displayHeight z)
        (pdfToDisplay (updateScaleInfo pdfWidth pdfHeight displayWidth displayHeight z) x y).1
        (pdfToDisplay (updateScaleInfo pdfWidth pdfHeight displayWidth displayHeight z) x y).2
      = (x, y) ∧
      toPDFCoord (updateScaleInfo pdfWidth pdfHeight displayWidth displayHeight z).displayScale
        (toScreenCoord
          (updateScaleInfo pdfWidth pdfHeight displayWidth displayHeight z).displayScale x)
      = x ∧
      toPDFCoord (updateScaleInfo pdfWidth pdfHeight displayWidth displayHeight z).displayScale
        (toScreenCoord
          (updateScaleInfo pdfWidth pdfHeight displayWidth displayHeight z).displayScale y)
      = y := by
  have hpos : 0 < (updateScaleInfo pdfWidth pdfHeight displayWidth displayHeight z).displayScale := by
    have h1 : 0 < displayWidth / pdfWidth := div_pos hdw hpw
    exact mul_pos h1 hz
  have hne : (updateScaleInfo pdfWidth pdfHeight displayWidth displayHeight z).displayScale ≠ 0 :=
    ne_of_gt hpos
  refine ⟨?_, ?_, ?_⟩ <;>
    simp [displayToPDF, pdfToDisplay, toPDFCoord, toScreenCoord, mul_div_assoc, div_self hne]

/-- C1 witness: the round trip evaluated at zoom 2 on a 612 by 792 point page
rendered 306 by 396 pixels, point (50, 70). -/
theorem c1_transform_round_trip_witness :
    displayToPDF (updateScaleInfo 612 792 306 396 2)
        (pdfToDisplay (updateScaleInfo 612 792 306 396 2) 50 70).1
        (pdfToDisplay (updateScaleInfo 612 792 306 396 2) 50 70).2
      = (50, 70) ∧
      toPDFCoord (updateScaleInfo 612 792 306 396 2).displayScale
        (toScreenCoord (updateScaleInfo 612 792 306 396 2).displayScale 50) = 50 ∧
      toPDFCoord (updateScaleInfo 612 792 306 396 2).displayScale
        (toScreenCoord (updateScaleInfo 612 792 306 396 2).displayScale 70) = 70 :=
  c1_transform_round_trip 2 612 792 306 396 50 70
    (by norm_num) (by norm_num) (by norm_num)

/-! ## C2: vertical coordinate conversion in the export -/

/-- A US-letter page in PDF points. -/
def pageLetter : PageSize := { width := 612, height := 792 }

/-- A concrete text element used to evaluate the export conversion. -/
def sampleTextEl : TextElement :=
  { id := "text-1-aaaaaaaaa", content := "Hello", x := 50, y := 100, fontSize := 16
    fontFamily := "Arial", color := "#000000", fontWeight := "normal"
    fontStyle := "normal", pageNumber := 1 }

/-- A concrete signature element used to evaluate the export conversion. -/
def sampleSigEl : SignatureElement :=
  { id := "signature-1-aaaaaaaaa", imageData := "payload", x := 40, y := 200
    width := 120, height := 60, rotation := 0, color := "#000000"
    pageNumber := 1, timestamp := 0, opacity := 1 }

/-- An oracle on which base64 decoding and PNG embedding always succeed. -/
def pngOkOracle : EmbedOracle :=
  { decodeBytes := fun s => some s
    embedPngOk := fun _ => true
    embedJpgOk := fun _ => false }

/-- C2 counterexample: on a 792-point-high page the code hands pdf-lib
y = 792 - 100 - 16 = 676 for a text element at y = 100 with font size 16, and
y = 792 - 200 - 60 - 20 = 512 for a signature at y = 200 of height 60 — not
the pure flips 692 and 592 the claim states. -/
theorem c2_counterexample :
    perTextElement [pageLetter] sampleTextEl =
        [PdfAction.drawText sampleTextEl.content sampleTextEl.x
          (pageLetter.height - sampleTextEl.y - sampleTextEl.fontSize)
          sampleTextEl.fontSize (chooseFont sampleTextEl.fontFamily)
          (parseColor sampleTextEl.color)] ∧
      perSignatureElement pngOkOracle [pageLetter] sampleSigEl =
        [PdfAction.drawImage "payload" sampleSigEl.x
          (pageLetter.height - sampleSigEl.y - sampleSigEl.height - 20)
          sampleSigEl.width sampleSigEl.height sampleSigEl.opacity none] ∧
      pageLetter.height - sampleTextEl.y - sampleTextEl.fontSize ≠
        pageLetter.height - sampleTextEl.y ∧
      pageLetter.height - sampleSigEl.y - sampleSigEl.height - 20 ≠
        pageLetter.height - sampleSigEl.y := by
  refine ⟨rfl, rfl, by norm_num [pageLetter, sampleTextEl],
    by norm_num [pageLetter, sampleSigEl]⟩

/-- C2 (amended): the vertical coordinate handed to pdf-lib is the flip with
an extra offset — pageHeight - y - fontSize for a text element (placing the
baseline one font size below the stored top), and
pageHeight - y - height - 20 for a signature image (an additional fixed
20-point downward adjustment). -/
theorem c2_vertical_flip_offsets (pages : List PageSize) (tel : TextElement)
    (sel : SignatureElement) (o : EmbedOracle) (pt ps : PageSize) (bytes : String)
    (htl : 1 ≤ tel.pageNumber) (hth : tel.pageNumber ≤ (pages.length : Int))
    (htp : pages.get? (tel.pageNumber - 1).toNat = some pt)
    (hsl : 1 ≤ sel.pageNumber) (hsh : sel.pageNumber ≤ (pages.length : Int))
    (hsp : pages.get? (sel.pageNumber - 1).toNat = some ps)
    (hdec : o.decodeBytes sel.imageData = some bytes)
    (hpng : o.embedPngOk bytes = true) :
    perTextElement pages tel =
        [PdfAction.drawText tel.content tel.x (pt.height - tel.y - tel.fontSize)
          tel.fontSize (chooseFont tel.fontFamily) (parseColor tel.color)] ∧
      perSignatureElement o pages sel =
        [PdfAction.drawImage bytes sel.x (ps.height - sel.y - sel.height - 20)
          sel.width sel.height sel.opacity
          (if sel.rotation == 0 then none else some sel.rotation)] := by
  have ht : ¬(tel.pageNumber - 1 < 0 ∨ (pages.length : Int) ≤ tel.pageNumber - 1) := by
    omega
  have hs : ¬(sel.pageNumber - 1 < 0 ∨ (pages.length : Int) ≤ sel.pageNumber - 1) := by
    omega
  constructor
  · simp only [perTextElement, if_neg ht, htp]
  · simp only [perSignatureElement, if_neg hs, hsp, hdec, hpng, Bool.true_or, if_true]

/-- C2 amended-theorem witness: the amended conversion evaluated on the
concrete elements above. -/
theorem c2_vertical_flip_offsets_witness :
    perTextElement [pageLetter] sampleTextEl =
        [PdfAction.drawText sampleTextEl.content sampleTextEl.x
          (pageLetter.height - sampleTextEl.y - sampleTextEl.fontSize)
          sampleTextEl.fontSize (chooseFont sampleTextEl.fontFamily)
          (parseColor sampleTextEl.color)] ∧
      perSignatureElement pngOkOracle [pageLetter] sampleSigEl =
        [PdfAction.drawImage "payload" sampleSigEl.x
          (pageLetter.height - sampleSigEl.y - sampleSigEl.height - 20)
          sampleSigEl.width sampleSigEl.height sampleSigEl.opacity
          (if sampleSigEl.rotation == 0 then none else some sampleSigEl.rotation)] :=
  c2_vertical_flip_offsets [pageLetter] sampleTextEl sampleSigEl pngOkOracle
    pageLetter pageLetter "payload" (by decide) (by decide) rfl
    (by decide) (by decide) rfl rfl rfl

/-! ## C10: page-range safety of the export -/

/-- C10: an element whose page number lies outside [1, number of pages]
contributes nothing to the export trace, removing it leaves the trace of all
other elements unchanged, and for every element that passes the guard the
page access is in bounds — so the export never indexes a page out of bounds
and completes normally. -/
theorem c10_out_of_range_elements_skipped (o : EmbedOracle) (pages : List PageSize)
    (tel : TextElement) (sel : SignatureElement)
    (t1 t2 : List TextElement) (s1 s2 : List SignatureElement)
    (htel : tel.pageNumber < 1 ∨ (pages.length : Int) < tel.pageNumber)
    (hsel : sel.pageNumber < 1 ∨ (pages.length : Int) < sel.pageNumber) :
    perTextElement pages tel = [] ∧
      perSignatureElement o pages sel = [] ∧
      addCustomElementsTrace o pages (t1 ++ tel :: t2) (s1 ++ sel :: s2) =
        addCustomElementsTrace o pages (t1 ++ t2) (s1 ++ s2) ∧
      (∀ el : TextElement, 1 ≤ el.pageNumber → el.pageNumber ≤ (pages.length : Int) →
        (pages.get? (el.pageNumber - 1).toNat).isSome) ∧
      (∀ el : SignatureElement, 1 ≤ el.pageNumber → el.pageNumber ≤ (pages.length : Int) →
        (pages.get? (el.pageNumber - 1).toNat).isSome) := by
  have ht : tel.pageNumber - 1 < 0 ∨ (pages.length : Int) ≤ tel.pageNumber - 1 := by omega
  have hs : sel.pageNumber - 1 < 0 ∨ (pages.length : Int) ≤ sel.pageNumber - 1 := by omega
  have h1 : perTextElement pages tel = [] := by
    simp only [perTextElement, if_pos ht]
  have h2 : perSignatureElement o pages sel = [] := by
    simp only [perSignatureElement, if_pos hs]
  refine ⟨h1, h2, ?_, ?_, ?_⟩
  · simp [addCustomElementsTrace, h1, h2]
  · intro el hl hh
    have hlt : (el.pageNumber - 1).toNat < pages.length := by omega
    rw [List.get?_eq_get hlt]
    rfl
  · intro el hl hh
    have hlt : (el.pageNumber - 1).toNat < pages.length := by omega
    rw [List.get?_eq_get hlt]
    rfl

/-- C10 witness: a two-page document, a text element on page 0 and a
signature element on page 3 are both skipped while elements on page 1 are
kept. -/
theorem c10_out_of_range_elements_skipped_witness :
    perTextElement [pageLetter, pageLetter]
        ({ sampleTextEl with pageNumber := 0 }) = [] ∧
      perSignatureElement pngOkOracle [pageLetter, pageLetter]
        ({ sampleSigEl with pageNumber := 3 }) = [] ∧
      addCustomElementsTrace pngOkOracle [pageLetter, pageLetter]
          ([sampleTextEl] ++ ({ sampleTextEl with pageNumber := 0 }) :: [])
          ([] ++ ({ sampleSigEl with pageNumber := 3 }) :: [sampleSigEl]) =
        addCustomElementsTrace pngOkOracle [pageLetter, pageLetter]
          ([sampleTextEl] ++ []) ([] ++ [sampleSigEl]) ∧
      (∀ el : TextElement, 1 ≤ el.pageNumber →
        el.pageNumber ≤ (([pageLetter, pageLetter] : List PageSize).length : Int) →
        (([pageLetter, pageLetter] : List PageSize).get? (el.pageNumber - 1).toNat).isSome) ∧
      (∀ el : SignatureElement, 1 ≤ el.pageNumber →
        el.pageNumber ≤ (([pageLetter, pageLetter] : List PageSize).length : Int) →
        (([pageLetter, pageLetter] : List PageSize).get? (el.pageNumber - 1).toNat).isSome) :=
  c10_out_of_range_elements_skipped pngOkOracle [pageLetter, pageLetter]
    ({ sampleTextEl with pageNumber := 0 }) ({ sampleSigEl with pageNumber := 3 })
    [sampleTextEl] [] [] [sampleSigEl] (by decide) (by decide)

/-! ## C6: signature embed fallback chain -/

/-- C6: a signature image is embedded as PNG first; when the PNG embed fails
it is retried as JPEG; when both fail the element is omitted with exactly a
console warning; the trace of an element list decomposes element by element,
so one failing element never disturbs the others and the export completes. -/
theorem c6_signature_embed_fallback (o : EmbedOracle) (pages : List PageSize)
    (sel : SignatureElement) (page : PageSize) (bytes : String)
    (texts : List TextElement) (s1 s2 : List SignatureElement)
    (hl : 1 ≤ sel.pageNumber) (hh : sel.pageNumber ≤ (pages.length : Int))
    (hp : pages.get? (sel.pageNumber - 1).toNat = some page)
    (hdec : o.decodeBytes sel.imageData = some bytes) :
    (o.embedPngOk bytes = true →
      perSignatureElement o pages sel =
        [PdfAction.drawImage bytes sel.x (page.height - sel.y - sel.height - 20)
          sel.width sel.height sel.opacity
          (if sel.rotation == 0 then none else some sel.rotation)]) ∧
      (o.embedPngOk bytes = false → o.embedJpgOk bytes = true →
        perSignatureElement o pages sel =
          [PdfAction.drawImage bytes sel.x (page.height - sel.y - sel.height - 20)
            sel.width sel.height sel.opacity
            (if sel.rotation == 0 then none else some sel.rotation)]) ∧
      (o.embedPngOk bytes = false → o.embedJpgOk bytes = false →
        perSignatureElement o pages sel = [PdfAction.warn "Failed to embed signature image"]) ∧
      addCustomElementsTrace o pages texts (s1 ++ sel :: s2) =
        (texts.map (perTextElement pages)).flatten ++
          ((s1.map (perSignatureElement o pages)).flatten ++
            (perSignatureElement o pages sel ++
              (s2.map (perSignatureElement o pages)).flatten)) := by
  have hg : ¬(sel.pageNumber - 1 < 0 ∨ (pages.length : Int) ≤ sel.pageNumber - 1) := by
    omega
  refine ⟨?_, ?_, ?_, ?_⟩
  · intro hpng
    simp only [perSignatureElement, if_neg hg, hp, hdec, hpng, Bool.true_or, if_true]
  · intro hpng hjpg
    simp only [perSignatureElement, if_neg hg, hp, hdec, hpng, hjpg, Bool.false_or, if_true]
  · intro hpng hjpg
    simp only [perSignatureElement, if_neg hg, hp, hdec, hpng, hjpg, Bool.or_self,
      Bool.false_eq_true, if_false]
  · simp [addCustomElementsTrace]

/-- An oracle on which every embed attempt fails. -/
def embedFailOracle : EmbedOracle :=
  { decodeBytes := fun s => some s
    embedPngOk := fun _ => false
    embedJpgOk := fun _ => false }

/-- C6 witness: on an oracle where both embeds fail, the sample signature on
page 1 of a one-page document yields exactly the console warning, and the
trace around it is undisturbed. -/
theorem c6_signature_embed_fallback_witness :
    (embedFailOracle.embedPngOk "payload" = false → embedFailOracle.embedJpgOk "payload" = false →
      perSignatureElement embedFailOracle [pageLetter] sampleSigEl =
        [PdfAction.warn "Failed to embed signature image"]) ∧
      addCustomElementsTrace embedFailOracle [pageLetter] [sampleTextEl]
          ([] ++ sampleSigEl :: [sampleSigEl]) =
        ([sampleTextEl].map (perTextElement [pageLetter])).flatten ++
          ((([] : List SignatureElement).map
              (perSignatureElement embedFailOracle [pageLetter])).flatten ++
            (perSignatureElement embedFailOracle [pageLetter] sampleSigEl ++
              ([sampleSigEl].map (perSignatureElement embedFailOracle [pageLetter])).flatten)) := by
  have h := c6_signature_embed_fallback embedFailOracle [pageLetter] sampleSigEl pageLetter
    "payload" [sampleTextEl] [] [sampleSigEl] (by decide) (by decide) rfl rfl
  exact ⟨fun _ _ => h.2.2.1 rfl rfl, h.2.2.2⟩

/-! ## C5: three-tier fuzzy form filling -/

/-- The code's field-value resolution agrees with the spec's three-tier
description whenever no captured key is the empty string (the form-field
tracker builds keys as `name || id || data-field-name || title ||
field_page_index`, so a captured key is never empty; the guards `if (ciKey)`
and `if (partialKey)` in the code are then equivalent to the match tests). -/
theorem resolve_eq_spec (fd : FormFieldData) (name : String)
    (hkeys : ∀ k ∈ fd.map Prod.fst, k ≠ "") :
    resolveFieldValue fd name = specResolveFieldValue fd name := by
  unfold resolveFieldValue specResolveFieldValue
  cases h0 : jsLookup fd name with
  | some v => rfl
  | none =>
    simp only [find?_keys_eq]
    cases h2 : fd.find? (fun kv => kv.1.toLower == name.toLower) with
    | some kv =>
      have hmem : kv ∈ fd := List.mem_of_find?_eq_some h2
      have hne : kv.1 ≠ "" := hkeys kv.1 (List.mem_map_of_mem Prod.fst hmem)
      have hlk : List.lookup kv.1 fd = some kv.2 :=
        lookup_of_find?_fst (fun k => k.toLower == name.toLower) fd kv h2
      simp [jsLookup, hlk, hne]
    | none =>
      cases h3 : fd.find? (fun kv =>
          jsIncludes name.toLower kv.1.toLower || jsIncludes kv.1.toLower name.toLower) with
      | some kv =>
        have hmem : kv ∈ fd := List.mem_of_find?_eq_some h3
        have hne : kv.1 ≠ "" := hkeys kv.1 (List.mem_map_of_mem Prod.fst hmem)
        have hlk : List.lookup kv.1 fd = some kv.2 :=
          lookup_of_find?_fst
            (fun k => jsIncludes name.toLower k.toLower || jsIncludes k.toLower name.toLower)
            fd kv h3
        simp [jsLookup, hlk, hne]
      | none => simp

/-- A single field's fill actions never contain the flatten call. -/
theorem flatten_not_mem_fillFieldActions (fd : FormFieldData) (f : PdfField) :
    PdfAction.flatten ∉ fillFieldActions fd f := by
  unfold fillFieldActions
  cases resolveFieldValue fd f.name with
  | none => simp
  | some v =>
    rcases v with s | b
    · cases f.ftype <;> simp
    · rcases b with _ | _ <;> cases f.ftype <;> simp

/-- The fuzzy fill pass never issues the flatten call. -/
theorem flatten_not_mem_fuzzyTrace (fields : List PdfField) (fd : FormFieldData) :
    PdfAction.flatten ∉ fillFormFieldsFuzzyTrace fields fd := by
  induction fields with
  | nil => simp [fillFormFieldsFuzzyTrace]
  | cons f rest ih =>
    simp only [fillFormFieldsFuzzyTrace, List.mem_append]
    rintro (h | h)
    · exact flatten_not_mem_fillFieldActions fd f h
    · exact ih h

/-- C5: the code resolves each PDF form field through exactly the spec's
three tiers in order (exact, case-insensitive, substring either direction),
using the first tier yielding a value, provided no captured key is empty (the
tracker guarantees this); a field with no match contributes no fill action;
and the form phase of the export issues the flatten call exactly once, after
the fill actions of all fields. -/
theorem c5_three_tier_form_fill (fd : FormFieldData) (fields : List PdfField) (name : String)
    (hkeys : ∀ k ∈ fd.map Prod.fst, k ≠ "") :
    resolveFieldValue fd name = specResolveFieldValue fd name ∧
      (∀ f ∈ fields, resolveFieldValue fd f.name = none → fillFieldActions fd f = []) ∧
      exportFormPhaseTrace fields fd =
        fillFormFieldsFuzzyTrace fields fd ++ [PdfAction.flatten] ∧
      PdfAction.flatten ∉ fillFormFieldsFuzzyTrace fields fd :=
  ⟨resolve_eq_spec fd name hkeys,
    fun f _ h => by simp [fillFieldActions, h],
    rfl,
    flatten_not_mem_fuzzyTrace fields fd⟩

/-- A concrete captured form-data object. -/
def sampleFormData : FormFieldData :=
  [("FullName", FormValue.str "Ada"), ("agree", FormValue.bool true)]

/-- Concrete detected form fields: an exactly-matched text field, a
case-insensitively matched checkbox, a substring-matched text field, and an
unmatched one. -/
def sampleFields : List PdfField :=
  [{ name := "FullName", ftype := .textField },
   { name := "Agree", ftype := .checkBox },
   { name := "name", ftype := .textField },
   { name := "zzz", ftype := .textField }]

/-- C5 witness: the theorem applied to the concrete form data and fields. -/
theorem c5_three_tier_form_fill_witness :
    resolveFieldValue sampleFormData "Agree" = specResolveFieldValue sampleFormData "Agree" ∧
      (∀ f ∈ sampleFields, resolveFieldValue sampleFormData f.name = none →
        fillFieldActions sampleFormData f = []) ∧
      exportFormPhaseTrace sampleFields sampleFormData =
        fillFormFieldsFuzzyTrace sampleFields sampleFormData ++ [PdfAction.flatten] ∧
      PdfAction.flatten ∉ fillFormFieldsFuzzyTrace sampleFields sampleFormData :=
  c5_three_tier_form_fill sampleFormData sampleFields "Agree" (by decide)

/-! ## C3: saved-signature store bound and FIFO eviction -/

/-- Truncating the appended tail before a take-10 changes nothing: only the
first ten elements matter. -/
theorem take_ten_append_take (A x : List SavedSignature) :
    (A ++ x.take 10).take 10 = (A ++ x).take 10 := by
  rw [List.take_append_eq_append_take, List.take_append_eq_append_take]
  congr 1
  rw [List.take_take]
  congr 1
  omega

/-- Folding saves over any store of at most ten entries yields the first ten
of the reversed history followed by the old store. -/
theorem savedStore_foldl (l : List SavedSignature) :
    ∀ acc : List SavedSignature, acc.length ≤ 10 →
      l.foldl (fun st s => saveSignatureToStore s st) acc = (l.reverse ++ acc).take 10 := by
  induction l with
  | nil =>
    intro acc h
    simp [List.take_of_length_le h]
  | cons s rest ih =>
    intro acc h
    simp only [List.foldl_cons]
    have hlen : (saveSignatureToStore s acc).length ≤ 10 := by
      simp [saveSignatureToStore]
    rw [ih (saveSignatureToStore s acc) hlen]
    show (rest.reverse ++ (s :: acc).take 10).take 10 = _
    rw [take_ten_append_take]
    simp [List.reverse_cons, List.append_assoc]

/-- The saved-signature store after any save history is exactly the last ten
saves, newest first. -/
theorem savedSignatureStore_eq (l : List SavedSignature) :
    savedSignatureStore l = l.reverse.take 10 := by
  unfold savedSignatureStore
  rw [savedStore_foldl l [] (by simp)]
  simp

/-- C3: saving a signature always yields a store of at most ten entries with
the new signature retained in front; when the store already holds ten, the
single evicted entry is the last of the list — which, the store being the
reversed save history (final conjunct), is the oldest by insertion order. -/
theorem c3_saved_signature_fifo_bound (sig : SavedSignature)
    (prev saves : List SavedSignature) :
    (saveSignatureToStore sig prev).length ≤ 10 ∧
      (saveSignatureToStore sig prev).head? = some sig ∧
      (prev.length = 10 → saveSignatureToStore sig prev = sig :: prev.dropLast) ∧
      savedSignatureStore (saves ++ [sig]) =
        saveSignatureToStore sig (savedSignatureStore saves) ∧
      savedSignatureStore saves = saves.reverse.take 10 := by
  have hten : (10 : ℕ) = 9 + 1 := rfl
  refine ⟨?_, ?_, ?_, ?_, savedSignatureStore_eq saves⟩
  · simp [saveSignatureToStore]
  · show (((sig :: prev).take 10).head? = some sig)
    rw [hten, List.take_succ_cons]
    rfl
  · intro h
    show ((sig :: prev).take 10 = sig :: prev.dropLast)
    rw [hten, List.take_succ_cons, List.dropLast_eq_take, h]
  · unfold savedSignatureStore
    rw [List.foldl_append]
    rfl

/-- A concrete saved signature carrying an index in its fields. -/
def mkSaved (n : ℕ) : SavedSignature :=
  { id := toString n, name := toString n, imageData := "d", width := 1, height := 1
    color := "#000000", timestamp := (n : Int) }

/-- A full store of ten concrete saved signatures. -/
def tenSaved : List SavedSignature := (List.range 10).map mkSaved

/-- C3 witness: saving an eleventh signature into the full ten-entry store
keeps ten entries, retains the new one in front, and evicts the last. -/
theorem c3_saved_signature_fifo_bound_witness :
    (saveSignatureToStore (mkSaved 10) tenSaved).length ≤ 10 ∧
      (saveSignatureToStore (mkSaved 10) tenSaved).head? = some (mkSaved 10) ∧
      saveSignatureToStore (mkSaved 10) tenSaved = mkSaved 10 :: tenSaved.dropLast ∧
      savedSignatureStore (tenSaved ++ [mkSaved 10]) =
        saveSignatureToStore (mkSaved 10) (savedSignatureStore tenSaved) ∧
      savedSignatureStore tenSaved = tenSaved.reverse.take 10 := by
  have h := c3_saved_signature_fifo_bound (mkSaved 10) tenSaved tenSaved
  exact ⟨h.1, h.2.1, h.2.2.1 (by simp [tenSaved]), h.2.2.2.1, h.2.2.2.2⟩

/-! ## C4: duplication of the selected element -/

/-- The toolbar defaults set in the `useState` initializer. -/
def defaultToolbar : ToolbarState :=
  { selectedTool := .select, fontSize := 16, fontFamily := "Arial", color := "#000000"
    fontWeight := "normal", fontStyle := "normal", signatureCanvasWidth := 400
    signatureCanvasHeight := 200, signatureColor := "#000000" }

/-- The text element the duplication handler builds from the source. -/
def duplicatedTextEl (now : Int) (rand : String) (el : TextElement) : TextElement :=
  { el with id := genElementId "text" now rand, x := el.x + 20, y := el.y + 20 }

/-- The signature element the duplication handler builds from the source. -/
def duplicatedSigEl (now : Int) (rand : String) (el : SignatureElement) : SignatureElement :=
  { el with id := genElementId "signature" now rand, x := el.x + 20, y := el.y + 20
            timestamp := now }

/-- C4: duplicating the selected text (resp. signature) element appends a new
element whose id is the freshly generated one (distinct from the source's
whenever the generated id differs), whose content and appearance fields equal
the source's, whose position is offset by exactly 20 in each axis, and the
duplicate becomes the new selection. -/
theorem c4_duplicate_selected (now : Int) (rand : String) (st : EditorState)
    (d : PDFDocument) (hdoc : st.document = some d) :
    (∀ selId el, st.selectedTextId = some selId →
      d.textElements.find? (fun e => e.id == selId) = some el →
      genElementId "text" now rand ≠ el.id →
      (handleDuplicateElement now rand st).document =
          some ({ d with textElements := d.textElements ++ [duplicatedTextEl now rand el] }) ∧
        (handleDuplicateElement now rand st).selectedTextId =
          some (duplicatedTextEl now rand el).id ∧
        (handleDuplicateElement now rand st).selectedSignatureId = none ∧
        (duplicatedTextEl now rand el).id ≠ el.id ∧
        (duplicatedTextEl now rand el).content = el.content ∧
        (duplicatedTextEl now rand el).fontSize = el.fontSize ∧
        (duplicatedTextEl now rand el).fontFamily = el.fontFamily ∧
        (duplicatedTextEl now rand el).color = el.color ∧
        (duplicatedTextEl now rand el).fontWeight = el.fontWeight ∧
        (duplicatedTextEl now rand el).fontStyle = el.fontStyle ∧
        (duplicatedTextEl now rand el).pageNumber = el.pageNumber ∧
        (duplicatedTextEl now rand el).x = el.x + 20 ∧
        (duplicatedTextEl now rand el).y = el.y + 20) ∧
      (∀ selId el, st.selectedTextId = none → st.selectedSignatureId = some selId →
        d.signatureElements.find? (fun e => e.id == selId) = some el →
        genElementId "signature" now rand ≠ el.id →
        (handleDuplicateElement now rand st).document =
            some ({ d with signatureElements :=
              d.signatureElements ++ [duplicatedSigEl now rand el] }) ∧
          (handleDuplicateElement now rand st).selectedSignatureId =
            some (duplicatedSigEl now rand el).id ∧
          (handleDuplicateElement now rand st).selectedTextId = none ∧
          (duplicatedSigEl now rand el).id ≠ el.id ∧
          (duplicatedSigEl now rand el).imageData = el.imageData ∧
          (duplicatedSigEl now rand el).width = el.width ∧
          (duplicatedSigEl now rand el).height = el.height ∧
          (duplicatedSigEl now rand el).rotation = el.rotation ∧
          (duplicatedSigEl now rand el).color = el.color ∧
          (duplicatedSigEl now rand el).opacity = el.opacity ∧
          (duplicatedSigEl now rand el).pageNumber = el.pageNumber ∧
          (duplicatedSigEl now rand el).x = el.x + 20 ∧
          (duplicatedSigEl now rand el).y = el.y + 20) := by
  constructor
  · intro selId el hsel hfind hfresh
    simp only [handleDuplicateElement, hdoc, hsel, hfind]
    simp [duplicatedTextEl, hfresh]
  · intro selId el hselT hselS hfind hfresh
    simp only [handleDuplicateElement, hdoc, hselT, hselS, hfind]
    simp [duplicatedSigEl, hfresh]

/-- A concrete one-page document holding the sample elements. -/
def sampleDoc : PDFDocument :=
  { name := "doc.pdf", numPages := 1
    textElements := [sampleTextEl], signatureElements := [sampleSigEl] }

/-- A state with the sample text element selected. -/
def stateTextSelected : EditorState :=
  { document := some sampleDoc
    currentPage := 1, selectedTextId := some sampleTextEl.id
    selectedSignatureId := none, editingTextId := none, showSignatureCanvas := false
    savedSignatures := [], toolbar := defaultToolbar }

/-- A state with the sample signature element selected. -/
def stateSigSelected : EditorState :=
  { stateTextSelected with selectedTextId := none
                           selectedSignatureId := some sampleSigEl.id }

/-- C4 witness: both branches of the duplication theorem applied to concrete
states (duplicating the sample text element at time 2 with suffix "bbb", and
the sample signature likewise). -/
theorem c4_duplicate_selected_witness :
    (handleDuplicateElement 2 "bbb" stateTextSelected).selectedTextId =
        some (duplicatedTextEl 2 "bbb" sampleTextEl).id ∧
      (duplicatedTextEl 2 "bbb" sampleTextEl).id ≠ sampleTextEl.id ∧
      (duplicatedTextEl 2 "bbb" sampleTextEl).x = sampleTextEl.x + 20 ∧
      (handleDuplicateElement 2 "bbb" stateSigSelected).selectedSignatureId =
        some (duplicatedSigEl 2 "bbb" sampleSigEl).id ∧
      (duplicatedSigEl 2 "bbb" sampleSigEl).id ≠ sampleSigEl.id ∧
      (duplicatedSigEl 2 "bbb" sampleSigEl).y = sampleSigEl.y + 20 := by
  have ht := (c4_duplicate_selected 2 "bbb" stateTextSelected sampleDoc rfl).1
    sampleTextEl.id sampleTextEl rfl (by simp [sampleDoc, sampleTextEl]) (by decide)
  have hs := (c4_duplicate_selected 2 "bbb" stateSigSelected sampleDoc rfl).2
    sampleSigEl.id sampleSigEl rfl rfl (by simp [sampleDoc, sampleSigEl]) (by decide)
  exact ⟨ht.2.1, ht.2.2.2.1, ht.2.2.2.2.2.2.2.2.2.2.2.1,
    hs.2.1, hs.2.2.2.1, hs.2.2.2.2.2.2.2.2.2.2.2.2⟩

/-! ## C7: the Escape shortcut -/

/-- C7: outside of a focused text input, an active inline edit or the open
signature dialog, pressing Escape — with any modifier state — forces the
select tool and leaves no selected text element, no selected signature
element and no inline-edit state. -/
theorem c7_escape_resets (ctrl meta : Bool) (now : Int) (rand : String)
    (st : EditorState) (hedit : st.editingTextId = none)
    (hcanvas : st.showSignatureCanvas = false) :
    (handleKeyDown .escape ctrl meta false now rand st).toolbar.selectedTool = .select ∧
      (handleKeyDown .escape ctrl meta false now rand st).selectedTextId = none ∧
      (handleKeyDown .escape ctrl meta false now rand st).selectedSignatureId = none ∧
      (handleKeyDown .escape ctrl meta false now rand st).editingTextId = none := by
  simp only [handleKeyDown, hedit, hcanvas, Option.isSome_none, Bool.false_or,
    Bool.if_false_left, Bool.and_false]
  cases hsel : st.selectedTextId <;> cases hsig : st.selectedSignatureId <;>
    simp [hsel, hsig, hedit, hcanvas]

/-- C7 witness: Escape applied in the state with the sample text element
selected (no inline edit, dialog closed) clears everything. -/
theorem c7_escape_resets_witness :
    (handleKeyDown .escape false false false 2 "bbb" stateTextSelected).toolbar.selectedTool =
        Tool.select ∧
      (handleKeyDown .escape false false false 2 "bbb" stateTextSelected).selectedTextId =
        none ∧
      (handleKeyDown .escape false false false 2 "bbb" stateTextSelected).selectedSignatureId =
        none ∧
      (handleKeyDown .escape false false false 2 "bbb" stateTextSelected).editingTextId =
        none :=
  c7_escape_resets false false 2 "bbb" stateTextSelected rfl rfl

/-! ## C8: deleting an element clears matching selection/edit state -/

/-- C8: deleting a text element clears the selected-text id and the editing
id exactly when they referred to the deleted element and leaves the signature
selection untouched; deleting a signature element clears the selected
signature id exactly when it referred to the deleted element and leaves text
selection and edit state untouched; the element collections lose exactly the
elements with the deleted id. -/
theorem c8_delete_clears_matching_state (st : EditorState) (d : PDFDocument)
    (id : String) (hdoc : st.document = some d) :
    (handleTextElementDelete st id).selectedTextId =
        (if st.selectedTextId = some id then none else st.selectedTextId) ∧
      (handleTextElementDelete st id).editingTextId =
        (if st.editingTextId = some id then none else st.editingTextId) ∧
      (handleTextElementDelete st id).selectedSignatureId = st.selectedSignatureId ∧
      (handleTextElementDelete st id).document =
        some ({ d with textElements := d.textElements.filter (fun e => e.id != id) }) ∧
      (handleSignatureElementDelete st id).selectedSignatureId =
        (if st.selectedSignatureId = some id then none else st.selectedSignatureId) ∧
      (handleSignatureElementDelete st id).selectedTextId = st.selectedTextId ∧
      (handleSignatureElementDelete st id).editingTextId = st.editingTextId ∧
      (handleSignatureElementDelete st id).document =
        some ({ d with signatureElements := d.signatureElements.filter (fun e => e.id != id) }) := by
  by_cases h1 : st.selectedTextId = some id <;>
    by_cases h2 : st.editingTextId = some id <;>
      by_cases h3 : st.selectedSignatureId = some id <;>
        simp [handleTextElementDelete, handleSignatureElementDelete, hdoc, h1, h2, h3]

/-- C8 witness: deleting the selected sample text element and, separately,
the sample signature element, in the concrete selected state. -/
theorem c8_delete_clears_matching_state_witness :
    (handleTextElementDelete stateTextSelected sampleTextEl.id).selectedTextId =
        (if stateTextSelected.selectedTextId = some sampleTextEl.id then none
          else stateTextSelected.selectedTextId) ∧
      (handleTextElementDelete stateTextSelected sampleTextEl.id).selectedSignatureId =
        stateTextSelected.selectedSignatureId ∧
      (handleSignatureElementDelete stateTextSelected sampleTextEl.id).selectedTextId =
        stateTextSelected.selectedTextId := by
  have h := c8_delete_clears_matching_state stateTextSelected sampleDoc sampleTextEl.id rfl
  exact ⟨h.1, h.2.2.1, h.2.2.2.2.2.1⟩

/-! ## C9: when the drag gesture writes the stored position -/

/-- A drag session over the selected sample text element. -/
def dragSession0 : DragSession :=
  { isDragging := true, editor := stateTextSelected }

/-- C9 counterexample: a single pointer-move event of the drag (the `onDrag`
callback) already changes the element's stored PDF position — at scale 2 and
screen data (30, 40) the stored position becomes (15, 20), differing from the
original (50, 100) — refuting that the stored position is left unchanged
until pointer-up; and the pointer-up callback leaves the document exactly as
the last move left it, so nothing is written back at pointer-up. -/
theorem c9_counterexample :
    ((dragMove 2 sampleTextEl.id 30 40 dragSession0).editor.document.map
        (fun d => d.textElements.map (fun e => (e.x, e.y)))) ≠
      (dragSession0.editor.document.map
        (fun d => d.textElements.map (fun e => (e.x, e.y)))) ∧
      (dragStop (dragMove 2 sampleTextEl.id 30 40 dragSession0)).editor =
        (dragMove 2 sampleTextEl.id 30 40 dragSession0).editor := by
  constructor
  · simp [dragMove, handleTextElementUpdate, dragSession0, stateTextSelected, sampleDoc,
      applyTextPatch, sampleTextEl]
    norm_num
  · rfl

/-- C9 (amended): on every pointer-move of a drag, the current screen
position is converted through the transform (divided by the display scale)
and written immediately into the stored PDF-point position of the dragged
element, other elements being untouched; pointer-up clears only the local
dragging flag and performs no write at all. -/
theorem c9_drag_writes_on_each_move (scale dx dy : ℚ) (elId : String)
    (s : DragSession) (d : PDFDocument) (hdoc : s.editor.document = some d) :
    (dragMove scale elId dx dy s).editor.document =
        some ({ d with textElements := d.textElements.map (fun e =>
          if e.id == elId then
            { e with x := toPDFCoord scale dx, y := toPDFCoord scale dy }
          else e) }) ∧
      (dragMove scale elId dx dy s).isDragging = s.isDragging ∧
      (dragStop s).editor = s.editor ∧
      (dragStop s).isDragging = false := by
  refine ⟨?_, rfl, rfl, rfl⟩
  simp only [dragMove, handleTextElementUpdate, hdoc]
  rfl

/-- C9 amended-theorem witness: the concrete move at scale 2 and data
(30, 40) on the sample session stores (30 / 2, 40 / 2). -/
theorem c9_drag_writes_on_each_move_witness :
    (dragMove 2 sampleTextEl.id 30 40 dragSession0).editor.document =
        some ({ sampleDoc with textElements := sampleDoc.textElements.map (fun e =>
          if e.id == sampleTextEl.id then
            { e with x := toPDFCoord 2 30, y := toPDFCoord 2 40 }
          else e) }) ∧
      (dragStop dragSession0).editor = dragSession0.editor :=
  ⟨(c9_drag_writes_on_each_move 2 30 40 sampleTextEl.id dragSession0 sampleDoc rfl).1,
    (c9_drag_writes_on_each_move 2 30 40 sampleTextEl.id dragSession0 sampleDoc rfl).2.2.1⟩

end PdfEditor
